import Mathlib

/-!
Shallow embedding of the dbg-probe ST-Link driver (src/common.rs,
src/probes/stlink/usb_interface.rs, src/probes/stlink/stlink.rs) and proofs
about its memory-transfer, version/voltage, register-validation and
transport-flush behaviour.

Machine integers are modelled as `Nat` with explicit reduction modulo
`2 ^ w`; Rust release-mode wrapping semantics is used where the source
subtracts `u32` values.  A Rust panic (out-of-bounds slice index) is
modelled as `Option.none`.  The probe device is modelled by the list of
buffers its successive bulk-in reads would supply, one entry per engine
`device.write` call (entries belonging to calls whose read buffer is empty
are ignored), and every engine operation additionally returns the trace of
transport write calls it issued.
-/

/-- Buffer-fill semantics: the Rust engine allocates a fixed-length `[0; len]`
buffer which the transport fills from the device response; bytes are `u8`,
modelled by reduction modulo 256. -/
def fillBuf (len : Nat) (resp : List Nat) : List Nat :=
  ((resp.map (· % 256)) ++ List.replicate len 0).take len

/-- BytesTo::to_u16 (src/common.rs lines 11-13): little-endian decode
`(self[1] << 8) | self[0]`; an out-of-bounds index (Rust panic) is `none`. -/
def to_u16 (b : List Nat) : Option Nat :=
  match b.get? 1, b.get? 0 with
  | some b1, some b0 => some ((b1 <<< 8) ||| b0)
  | _, _ => none

/-- BytesTo::to_u32 (src/common.rs lines 7-9): little-endian decode
`(self[3] << 24) | (self[2] << 16) | (self[1] << 8) | self[0]`; an
out-of-bounds index (Rust panic) is `none`. -/
def to_u32 (b : List Nat) : Option Nat :=
  match b.get? 3, b.get? 2, b.get? 1, b.get? 0 with
  | some b3, some b2, some b1, some b0 =>
      some ((b3 <<< 24) ||| (b2 <<< 16) ||| (b1 <<< 8) ||| b0)
  | _, _, _, _ => none

/-- Modelled from the spec: constants.rs is not under src/.  The spec only
requires an OK sentinel distinct from the fault codes; the representative
sentinel value 0x80 is used. -/
def JtagOk : Nat := 0x80

/-- Modelled from the spec: constants.rs is not under src/; representative
distinct value for the unknown-error status code. -/
def JtagUnknownError : Nat := 0x01

/-- Modelled from the spec: constants.rs is not under src/; representative
distinct value for the access-port fault status code. -/
def SwdApFault : Nat := 0x11

/-- Modelled from the spec: constants.rs is not under src/; representative
distinct value for the debug-port fault status code. -/
def SwdDpFault : Nat := 0x15

/-- Modelled from the spec: constants.rs is not under src/; opcode of the
fixed command frame's first byte for JTAG commands. -/
def JTAG_COMMAND : Nat := 0xF2

/-- Modelled from the spec: constants.rs is not under src/; sub-opcode of the
last-transfer-status query. -/
def JTAG_GETLASTRWSTATUS2 : Nat := 0x3E

/-- Modelled from the spec: constants.rs is not under src/; opcode of the
version query. -/
def GET_VERSION : Nat := 0xF1

/-- Modelled from the spec: constants.rs is not under src/; opcode of the
extended version query. -/
def GET_VERSION_EXT : Nat := 0xFB

/-- Modelled from the spec: constants.rs is not under src/; opcode of the
target-voltage query. -/
def GET_TARGET_VOLTAGE : Nat := 0xF7

/-- Modelled from the spec: constants.rs is not under src/; sub-opcode for
32-bit memory reads. -/
def JTAG_READMEM_32BIT : Nat := 0x07

/-- Modelled from the spec: constants.rs is not under src/; sub-opcode for
32-bit memory writes. -/
def JTAG_WRITEMEM_32BIT : Nat := 0x08

/-- Modelled from the spec: constants.rs is not under src/; sub-opcode for
16-bit memory reads. -/
def JTAG_READMEM_16BIT : Nat := 0x47

/-- Modelled from the spec: constants.rs is not under src/; sub-opcode for
16-bit memory writes. -/
def JTAG_WRITEMEM_16BIT : Nat := 0x48

/-- Modelled from the spec: constants.rs is not under src/; sub-opcode for
8-bit memory reads. -/
def JTAG_READMEM_8BIT : Nat := 0x0C

/-- Modelled from the spec: constants.rs is not under src/; sub-opcode for
8-bit memory writes. -/
def JTAG_WRITEMEM_8BIT : Nat := 0x0D

/-- Modelled from the spec: constants.rs is not under src/; sub-opcode of the
DAP register read command. -/
def JTAG_READ_DAP_REG : Nat := 0x45

/-- Modelled from the spec: constants.rs is not under src/; sub-opcode of the
DAP register write command. -/
def JTAG_WRITE_DAP_REG : Nat := 0x46

/-- STLink::MAXIMUM_TRANSFER_SIZE (stlink.rs line 52). -/
def MAXIMUM_TRANSFER_SIZE : Nat := 1024

/-- STLink::MIN_JTAG_VERSION (stlink.rs line 55). -/
def MIN_JTAG_VERSION : Nat := 24

/-- STLink::MIN_JTAG_VERSION_16BIT_XFER (stlink.rs line 58). -/
def MIN_JTAG_VERSION_16BIT_XFER : Nat := 26

/-- STLink::MIN_JTAG_VERSION_MULTI_AP (stlink.rs line 61). -/
def MIN_JTAG_VERSION_MULTI_AP : Nat := 28

/-- STLink::DP_PORT (stlink.rs line 64). -/
def DP_PORT : Nat := 0xffff

/-- STLinkError (stlink.rs lines 32-45).  The libusb error payload of the USB
variant is dropped; TransferFault carries the fault address and the 16-bit
completed-byte count. -/
inductive STLinkError where
  | USB
  | JTAGNotSupportedOnProbe
  | ProbeFirmwareOutdated
  | VoltageDivisionByZero
  | UnknownMode
  | JTagDoesNotSupportMultipleAP
  | UnknownError
  | TransferFault (fault_address : Nat) (bytes_count : Nat)
  | DataAlignmentError
  | Access16BitNotSupported
  | BlanksNotAllowedOnDPRegister
  | RegisterAddressMustBe16Bit
deriving DecidableEq, Repr

/-- One transport write call as the engine issues it: the logical command
bytes (before frame padding), the data-out payload, and the length of the
read buffer handed to the data-in phase. -/
structure WriteCall where
  cmd : List Nat
  dataOut : List Nat
  readLen : Nat
deriving DecidableEq, Repr

/-- The transport performs the data-in phase only when the read buffer
handed to it is nonempty (usb_interface.rs lines 184-189). -/
def dataInPhasePerformed (c : WriteCall) : Bool := decide (0 < c.readLen)

/-- Transport errors of usb_interface.rs (libusb::Error values used there:
Timeout, Io, NotFound). -/
inductive USBError where
  | timeout
  | ioFailure
  | notFound
deriving DecidableEq, Repr

/-- STLinkUSBDevice::read (usb_interface.rs lines 155-160): it allocates
`Vec::with_capacity(size)` whose length is 0, maps `read_bulk` over the
device handle into that zero-length slice, DISCARDS the outcome of
`read_bulk`, and returns `Ok(buf)` unconditionally, so the function's result
never reflects `bulkOutcome` and the returned vector is always empty. -/
def usbRead (_size : Nat) (_bulkOutcome : Except USBError Nat) :
    Except USBError (List Nat) :=
  .ok []

/-- STLinkUSBDevice::flush_rx (usb_interface.rs lines 147-153): loop that
breaks exactly when `read` returns `Err(Timeout)`.  `bulkOutcomes i` is the
outcome `read_bulk` would produce at iteration `i`; the result is `true`
precisely when the loop has exited within the given number of iterations. -/
def flush_rx_exits (bulkOutcomes : Nat → Except USBError Nat) : Nat → Bool
  | 0 => false
  | n + 1 =>
    match usbRead 1000 (bulkOutcomes 0) with
    | .error .timeout => true
    | _ => flush_rx_exits (fun i => bulkOutcomes (i + 1)) n

/-- Arithmetic bound of the u32 type. -/
def u32lim : Nat := 4294967296

/-- Arithmetic bound of the u16 type. -/
def u16lim : Nat := 65536

/-- Wrapping reduction of a u32 expression. -/
def wrap32 (n : Nat) : Nat := n % u32lim

/-- Wrapping u32 subtraction (Rust release-mode `a - b` on u32). -/
def wsub32 (a b : Nat) : Nat := (a % u32lim + (u32lim - b % u32lim)) % u32lim

/-- The 9 logical command bytes built per chunk in read_mem and write_mem
(stlink.rs lines 263-269 and 300-306).  Each address byte `(addr >> k) as u8`
and size byte is ORed with 0xFF exactly as in the source. -/
def buildMemCmd (memcmd addr transfer_size apsel : Nat) : List Nat :=
  [JTAG_COMMAND, memcmd,
   (addr % 256) ||| 0xFF, ((addr >>> 8) % 256) ||| 0xFF,
   ((addr >>> 16) % 256) ||| 0xFF, ((addr >>> 24) % 256) ||| 0xFF,
   ((transfer_size >>> 0) % 256) ||| 0xFF, ((transfer_size >>> 8) % 256) ||| 0xFF,
   apsel]

/-- The 16-bit status code decoded from bytes 0..2 of the 12-byte
last-transfer-status response (stlink.rs lines 281 and 316). -/
def decodedStatus (resp : List Nat) : Nat :=
  (to_u16 ((fillBuf 12 resp).take 2)).getD 0

/-- The 32-bit fault address decoded from bytes 4..8 of the 12-byte
last-transfer-status response (stlink.rs lines 282 and 317). -/
def decodedFaultAddress (resp : List Nat) : Nat :=
  (to_u32 (((fillBuf 12 resp).drop 4).take 4)).getD 0

/-- Outcome of the per-chunk status check. -/
inductive StatusAction where
  | fault
  | anomalyOk
  | proceed
deriving DecidableEq, Repr

/-- The nested status dispatch of read_mem and write_mem (stlink.rs lines
283-287 and 318-322): unknown-error, AP-fault and DP-fault codes take the
TransferFault path, a code equal to JtagOk takes the early
`return Err(UnknownError)` path, and any other code falls through to the
next loop iteration. -/
def memStatusAction (status : Nat) : StatusAction :=
  if status = JtagUnknownError then .fault
  else if status = SwdApFault then .fault
  else if status = SwdDpFault then .fault
  else if status = JtagOk then .anomalyOk
  else .proceed

/-- STLink::read_mem (stlink.rs lines 258-293), with an explicit iteration
bound as first argument: every iteration with `size > 0` decreases `size`
by `min size MAXIMUM_TRANSFER_SIZE ≥ 1`, so a bound of `size` iterations is
always sufficient (the wrapper passes exactly that).  Per iteration the
source allocates `Vec::with_capacity(transfer_size)`, whose length is 0, so
the slice handed to the transport's data-in phase is empty (readLen 0) and
`result.extend` appends nothing; `addr` is advanced BEFORE the status check,
so the TransferFault count is computed from the advanced address, with
wrapping u32 subtraction and `as u16` truncation. -/
def read_mem_loop :
    Nat → Nat → Nat → Nat → Nat → List (List Nat) →
    Except STLinkError (List Nat) × List WriteCall
  | 0, _, _, _, _, _ => (.ok [], [])
  | fuel + 1, addr, size, memcmd, apsel, responses =>
    if size = 0 then (.ok [], [])
    else
      let transfer_size := min size MAXIMUM_TRANSFER_SIZE
      let cmd := buildMemCmd memcmd addr transfer_size apsel
      let dataCall : WriteCall := { cmd := cmd, dataOut := [], readLen := 0 }
      let chunkData : List Nat := []
      let addr' := wrap32 (addr + transfer_size)
      let size' := size - transfer_size
      let statusResp := (responses.get? 1).getD []
      let status := decodedStatus statusResp
      let fault_address := decodedFaultAddress statusResp
      let statusCall : WriteCall :=
        { cmd := [JTAG_COMMAND, JTAG_GETLASTRWSTATUS2], dataOut := [], readLen := 12 }
      match memStatusAction status with
      | .anomalyOk => (.error .UnknownError, [dataCall, statusCall])
      | .fault =>
          (.error (.TransferFault fault_address
             (wsub32 transfer_size (wsub32 fault_address addr') % u16lim)),
           [dataCall, statusCall])
      | .proceed =>
          let rest := read_mem_loop fuel addr' size' memcmd apsel (responses.drop 2)
          (Except.map (fun r => chunkData ++ r) rest.1,
           dataCall :: statusCall :: rest.2)

/-- STLink::read_mem, at its only call pattern `max = MAXIMUM_TRANSFER_SIZE`
(stlink.rs lines 332, 349, 365). -/
def read_mem (addr size memcmd apsel : Nat) (responses : List (List Nat)) :
    Except STLinkError (List Nat) × List WriteCall :=
  read_mem_loop size addr size memcmd apsel responses

/-- STLink::write_mem (stlink.rs lines 295-328), with an explicit iteration
bound as first argument (the wrapper passes `data.length`, always
sufficient).  The chunk payload is sent in the data-out phase; `addr` is
advanced and `data` drained before the status check, exactly as in
read_mem. -/
def write_mem_loop :
    Nat → Nat → List Nat → Nat → Nat → List (List Nat) →
    Except STLinkError Unit × List WriteCall
  | 0, _, _, _, _, _ => (.ok (), [])
  | fuel + 1, addr, data, memcmd, apsel, responses =>
    if data.length = 0 then (.ok (), [])
    else
      let transfer_size := min data.length MAXIMUM_TRANSFER_SIZE
      let transfer_data := data.take transfer_size
      let cmd := buildMemCmd memcmd addr transfer_size apsel
      let dataCall : WriteCall := { cmd := cmd, dataOut := transfer_data, readLen := 0 }
      let addr' := wrap32 (addr + transfer_size)
      let data' := data.drop transfer_size
      let statusResp := (responses.get? 1).getD []
      let status := decodedStatus statusResp
      let fault_address := decodedFaultAddress statusResp
      let statusCall : WriteCall :=
        { cmd := [JTAG_COMMAND, JTAG_GETLASTRWSTATUS2], dataOut := [], readLen := 12 }
      match memStatusAction status with
      | .anomalyOk => (.error .UnknownError, [dataCall, statusCall])
      | .fault =>
          (.error (.TransferFault fault_address
             (wsub32 transfer_size (wsub32 fault_address addr') % u16lim)),
           [dataCall, statusCall])
      | .proceed =>
          let rest := write_mem_loop fuel addr' data' memcmd apsel (responses.drop 2)
          (rest.1, dataCall :: statusCall :: rest.2)

/-- STLink::write_mem, at its only call pattern `max = MAXIMUM_TRANSFER_SIZE`
(stlink.rs lines 339, 359, 369). -/
def write_mem (addr : Nat) (data : List Nat) (memcmd apsel : Nat)
    (responses : List (List Nat)) :
    Except STLinkError Unit × List WriteCall :=
  write_mem_loop data.length addr data memcmd apsel responses

/-- STLink::read_mem32 (stlink.rs lines 330-335). -/
def read_mem32 (addr size apsel : Nat) (responses : List (List Nat)) :
    Except STLinkError (List Nat) × List WriteCall :=
  if addr &&& 0x3 = 0 ∧ size &&& 0x3 = 0 then
    read_mem addr size JTAG_READMEM_32BIT apsel responses
  else (.error .DataAlignmentError, [])

/-- STLink::write_mem32 (stlink.rs lines 337-342). -/
def write_mem32 (addr : Nat) (data : List Nat) (apsel : Nat)
    (responses : List (List Nat)) :
    Except STLinkError Unit × List WriteCall :=
  if addr &&& 0x3 = 0 ∧ data.length &&& 0x3 = 0 then
    write_mem addr data JTAG_WRITEMEM_32BIT apsel responses
  else (.error .DataAlignmentError, [])

/-- STLink::read_mem16 (stlink.rs lines 344-352); `jtag_version` is the
probe state field consulted by the feature gate. -/
def read_mem16 (jtag_version addr size apsel : Nat) (responses : List (List Nat)) :
    Except STLinkError (List Nat) × List WriteCall :=
  if addr &&& 0x1 = 0 ∧ size &&& 0x1 = 0 then
    if jtag_version < MIN_JTAG_VERSION_16BIT_XFER then
      (.error .Access16BitNotSupported, [])
    else read_mem addr size JTAG_READMEM_16BIT apsel responses
  else (.error .DataAlignmentError, [])

/-- STLink::write_mem16 (stlink.rs lines 354-362). -/
def write_mem16 (jtag_version addr : Nat) (data : List Nat) (apsel : Nat)
    (responses : List (List Nat)) :
    Except STLinkError Unit × List WriteCall :=
  if addr &&& 0x1 = 0 ∧ data.length &&& 0x1 = 0 then
    if jtag_version < MIN_JTAG_VERSION_16BIT_XFER then
      (.error .Access16BitNotSupported, [])
    else write_mem addr data JTAG_WRITEMEM_16BIT apsel responses
  else (.error .DataAlignmentError, [])

/-- STLink::read_mem8 (stlink.rs lines 364-366). -/
def read_mem8 (addr size apsel : Nat) (responses : List (List Nat)) :
    Except STLinkError (List Nat) × List WriteCall :=
  read_mem addr size JTAG_READMEM_8BIT apsel responses

/-- STLink::write_mem8 (stlink.rs lines 368-370). -/
def write_mem8 (addr : Nat) (data : List Nat) (apsel : Nat)
    (responses : List (List Nat)) :
    Except STLinkError Unit × List WriteCall :=
  write_mem addr data JTAG_WRITEMEM_8BIT apsel responses

/-- The packed 16-bit version field `(buf[1] << 8) | buf[0]` of the 12-byte
GET_VERSION response (stlink.rs line 102). -/
def versionOf (resp : List Nat) : Nat :=
  let buf := fillBuf 12 resp
  ((buf.getD 1 0) <<< 8) ||| buf.getD 0 0

/-- The hardware-version sub-field `(version >> 12) & 0x0F`
(stlink.rs line 103). -/
def hwVersionOf (resp : List Nat) : Nat :=
  (versionOf resp >>> 12) &&& 0x0F

/-- The protocol-version sub-field `(version >> 6) & 0x3F`
(stlink.rs line 104). -/
def jtagFieldOf (resp : List Nat) : Nat :=
  (versionOf resp >>> 6) &&& 0x3F

/-- STLink::get_version (stlink.rs lines 87-138), as a function of the base
GET_VERSION response and the GET_VERSION_EXT response; on success it returns
the recorded (hw_version, jtag_version) pair, and it always returns the
trace of transport writes issued. -/
def get_version (baseResp extResp : List Nat) :
    Except STLinkError (Nat × Nat) × List WriteCall :=
  let hw := hwVersionOf baseResp
  let baseCall : WriteCall := { cmd := [GET_VERSION], dataOut := [], readLen := 12 }
  let extCall : WriteCall := { cmd := [GET_VERSION_EXT], dataOut := [], readLen := 12 }
  let jtag :=
    if 3 ≤ hw then (to_u32 ((fillBuf 12 extResp).take 4)).getD 0
    else jtagFieldOf baseResp
  let trace := if 3 ≤ hw then [baseCall, extCall] else [baseCall]
  if jtag = 0 then (.error .JTAGNotSupportedOnProbe, trace)
  else if jtag < MIN_JTAG_VERSION then (.error .ProbeFirmwareOutdated, trace)
  else (.ok (hw, jtag), trace)

/-- The voltage value of the Ok branch of get_target_voltage (stlink.rs line
147): `(2.0 * a1 * 1.2 / a0) as u32`.  The f32 arithmetic is modelled by
exact rational arithmetic with the final `as u32` truncation as a floor;
this branch is unreachable (see get_target_voltage). -/
def voltage (a0 a1 : Nat) : Nat :=
  (2 * (a1 : ℚ) * (6 / 5) / (a0 : ℚ)).floor.toNat

/-- STLink::get_target_voltage (stlink.rs lines 140-154), as a function of
the 8-byte response: reading0 is decoded from bytes 0..4 and reading1 from
the 3-byte slice `&buf[5..8]`, both via to_u32; an out-of-bounds decoder
index (a Rust panic) yields `none`.  The zero test `a0 != 0.0` is exact
because the u32-to-f32 conversion maps exactly the value 0 to 0.0. -/
def get_target_voltage (resp : List Nat) : Option (Except STLinkError Nat) :=
  let buf := fillBuf 8 resp
  match to_u32 (buf.take 4), to_u32 ((buf.drop 5).take 3) with
  | some a0, some a1 =>
      if a0 ≠ 0 then some (.ok (voltage a0 a1))
      else some (.error .VoltageDivisionByZero)
  | _, _ => none

/-- STLink::read_dap_register (stlink.rs lines 372-394), as a function of
the 8-byte response buffer; the result carries the trace of transport
writes (empty on a validation failure). -/
def read_dap_register (port addr : Nat) (resp : List Nat) :
    Except STLinkError Nat × List WriteCall :=
  if addr &&& 0xf0 = 0 ∨ port ≠ DP_PORT then
    if addr >>> 16 = 0 then
      let cmd := [JTAG_COMMAND, JTAG_READ_DAP_REG,
                  port &&& 0xFF, (port >>> 8) &&& 0xFF,
                  addr &&& 0xFF, (addr >>> 8) &&& 0xFF]
      let buf := fillBuf 8 resp
      let call : WriteCall := { cmd := cmd, dataOut := [], readLen := 8 }
      if buf.getD 0 0 ≠ JtagOk then (.error .UnknownError, [call])
      else ((to_u32 (buf.take 4)).getD 0 |> .ok, [call])
    else (.error .RegisterAddressMustBe16Bit, [])
  else (.error .BlanksNotAllowedOnDPRegister, [])

/-- STLink::write_dap_register (stlink.rs lines 396-422). -/
def write_dap_register (port addr value : Nat) (resp : List Nat) :
    Except STLinkError Unit × List WriteCall :=
  if addr &&& 0xf0 = 0 ∨ port ≠ DP_PORT then
    if addr >>> 16 = 0 then
      let cmd := [JTAG_COMMAND, JTAG_WRITE_DAP_REG,
                  port &&& 0xFF, (port >>> 8) &&& 0xFF,
                  addr &&& 0xFF, (addr >>> 8) &&& 0xFF,
                  value &&& 0xFF, (value >>> 8) &&& 0xFF,
                  (value >>> 16) &&& 0xFF, (value >>> 24) &&& 0xFF]
      let buf := fillBuf 8 resp
      let call : WriteCall := { cmd := cmd, dataOut := [], readLen := 8 }
      if buf.getD 0 0 ≠ JtagOk then (.error .UnknownError, [call])
      else (.ok (), [call])
    else (.error .RegisterAddressMustBe16Bit, [])
  else (.error .BlanksNotAllowedOnDPRegister, [])

theorem fillBuf_length (len : Nat) (resp : List Nat) :
    (fillBuf len resp).length = len := by
  simp [fillBuf]

theorem and_three_eq_mod (n : Nat) : n &&& 3 = n % 4 := by
  have h := Nat.and_pow_two_sub_one_eq_mod n 2
  simpa using h

theorem and_one_eq_mod (n : Nat) : n &&& 1 = n % 2 := by
  simp

/-- Claim C4 (code_bug evaluation): STLinkUSBDevice::read discards the
outcome of the underlying bulk read and returns Ok unconditionally, so its
result is never Err(Timeout); consequently the flush_rx loop, whose only
exit condition is a read result of Err(Timeout), never exits, whatever the
device does and however many iterations are allowed.  The claim says a
timed-out read surfaces the timeout as its result and the loop exits on the
first timed-out read. -/
theorem flush_rx_never_exits :
    (∀ r : Except USBError Nat, usbRead 1000 r ≠ .error .timeout) ∧
    (∀ (outcomes : Nat → Except USBError Nat) (n : Nat),
        flush_rx_exits outcomes n = false) := by
  constructor
  · intro r h
    simp [usbRead] at h
  · intro outcomes n
    induction n generalizing outcomes with
    | zero => rfl
    | succ n ih => simp [flush_rx_exits, usbRead, ih]

/-- Claim C5 (code_bug evaluation): on the 8-byte all-zero response, whose
first reading decodes to 0, get_target_voltage does not return the
division-by-zero error: it performs an out-of-bounds index (Rust panic,
modelled `none`) while decoding the second reading, because to_u32 reads
index 3 of the 3-byte slice `&buf[5..8]`. -/
theorem get_target_voltage_panics_on_zero_reading :
    to_u32 ((fillBuf 8 (List.replicate 8 0)).take 4) = some 0
    ∧ get_target_voltage (List.replicate 8 0) = none := by
  constructor <;> rfl

/-- Claim C10 (counterexample): on a concrete 8-byte response the second
reading's slice `&buf[5..8]` has length 3, and decoding it with the 32-bit
decoder to_u32 goes out of bounds (index 3), so get_target_voltage panics
(modelled `none`) rather than staying within the slice's bounds. -/
theorem voltage_decode_out_of_bounds :
    (((fillBuf 8 [1, 0, 0, 0, 9, 9, 9, 0]).drop 5).take 3).length = 3
    ∧ to_u32 (((fillBuf 8 [1, 0, 0, 0, 9, 9, 9, 0]).drop 5).take 3) = none
    ∧ get_target_voltage [1, 0, 0, 0, 9, 9, 9, 0] = none := by
  refine ⟨rfl, rfl, rfl⟩

/-- Claim C10 (amended): decoding the second reading applies to_u32 to the
3-byte slice at offsets 5..8, and to_u32 accesses index 3 of its argument,
which is out of the slice's bounds; hence get_target_voltage performs an
out-of-bounds index (a panic, modelled `none`) on every 8-byte response
buffer, whatever its contents. -/
theorem get_target_voltage_always_panics (resp : List Nat) :
    get_target_voltage resp = none := by
  have h3 : ((((fillBuf 8 resp).drop 5).take 3).get? 3) = none := by
    rw [List.get?_eq_none]
    simp [List.length_take, List.length_drop, fillBuf_length]
  have hnone : to_u32 (((fillBuf 8 resp).drop 5).take 3) = none := by
    unfold to_u32
    rw [h3]
  simp only [get_target_voltage]
  rw [hnone]
  cases to_u32 ((fillBuf 8 resp).take 4) <;> rfl

/-- Claim C1 (counterexample): for the spec's own example — a chunk starting
at 0x1000 of size 256 with a decoded access-port-fault status and fault
address 0x2000 — read_mem reports TransferFault with completed-byte count
61952 (0xF200).  The claimed value, chunk size minus (fault address minus
the chunk's STARTING address), is 256 - 0x1000 = -3840, which is 61696
(0xF100) under 16-bit wrapping and 0 under clipping, and any count clipped
to the chunk's valid range would be at most 256; the code's 61952 is none
of these, because the source subtracts from the address already advanced
past the chunk (0x1100), not the chunk's starting address. -/
theorem read_mem_fault_count_spec_example_fails :
    (read_mem 0x1000 256 JTAG_READMEM_32BIT 0
        [[], [0x11, 0, 0, 0, 0x00, 0x20, 0, 0]]).1
      = .error (.TransferFault 0x2000 61952)
    ∧ decodedStatus [0x11, 0, 0, 0, 0x00, 0x20, 0, 0] = SwdApFault
    ∧ decodedFaultAddress [0x11, 0, 0, 0, 0x00, 0x20, 0, 0] = 0x2000
    ∧ 61952 ≠ (256 + u32lim - (0x2000 - 0x1000)) % u16lim
    ∧ 61952 ≠ 0
    ∧ ¬ (61952 ≤ 256) := by
  refine ⟨rfl, rfl, rfl, by decide, by decide, by decide⟩

/-- Claim C2 (code_bug evaluation): each address and size byte of the
per-chunk memory command is ORed with 0xFF (a slip for `& 0xFF`, compare
read_dap_register), so the bytes sent for address 0x1000 and size 256 are
all 0xFF, while the little-endian encoding the claim states would put
0x10 = bits 8..15 of the address in the second address byte.  The trace of
an actual read_mem call shows the same saturated bytes on the wire. -/
theorem mem_cmd_address_bytes_saturated :
    buildMemCmd JTAG_WRITEMEM_32BIT 0x1000 256 3
      = [JTAG_COMMAND, JTAG_WRITEMEM_32BIT, 0xFF, 0xFF, 0xFF, 0xFF, 0xFF, 0xFF, 3]
    ∧ (0x1000 >>> 8) % 256 = 0x10
    ∧ (0x10 : Nat) ≠ 0xFF
    ∧ (read_mem 0x1000 256 JTAG_READMEM_32BIT 3 [[], List.replicate 12 0]).2.map
        WriteCall.cmd
      = [[JTAG_COMMAND, JTAG_READMEM_32BIT, 0xFF, 0xFF, 0xFF, 0xFF, 0xFF, 0xFF, 3],
         [JTAG_COMMAND, JTAG_GETLASTRWSTATUS2]] := by
  refine ⟨rfl, rfl, by decide, rfl⟩

/-- Claim C3 (code_bug evaluation): a 4-byte read with a benign status hands
the transport a read buffer of length 0 (the `Vec::with_capacity` slice is
empty), so the chunk's data-in phase is not performed — only the 12-byte
status query reads — and read_mem returns Ok with an empty vector instead
of 4 bytes. -/
theorem read_mem_returns_no_data :
    (read_mem 0 4 JTAG_READMEM_32BIT 0 [[], List.replicate 12 0]).1 = .ok []
    ∧ (read_mem 0 4 JTAG_READMEM_32BIT 0 [[], List.replicate 12 0]).2.map
        WriteCall.readLen = [0, 12]
    ∧ (read_mem 0 4 JTAG_READMEM_32BIT 0 [[], List.replicate 12 0]).2.map
        dataInPhasePerformed = [false, true]
    ∧ ([] : List Nat).length ≠ 4 := by
  refine ⟨rfl, rfl, rfl, by decide⟩

/-- Claim C6 (counterexample): a version-query response whose packed 16-bit
field has hardware-version 3 and protocol-version 0 does NOT make
get_version fail — the extended query is issued (two transport writes) and
its 32-bit value overwrites the protocol version before the zero check, so
with an extended response of 24 the call succeeds. -/
theorem get_version_ext_overrides_zero_field :
    jtagFieldOf [0x00, 0x30] = 0
    ∧ get_version [0x00, 0x30] [24, 0, 0, 0]
      = (.ok (3, 24),
         [{ cmd := [GET_VERSION], dataOut := [], readLen := 12 },
          { cmd := [GET_VERSION_EXT], dataOut := [], readLen := 12 }]) := by
  refine ⟨rfl, rfl⟩

/-- Claim C6 (amended): when the decoded hardware-version field is below 3
and the packed protocol-version field decodes to 0, get_version fails with
JTAGNotSupportedOnProbe and exactly one transport write (the base version
query) is issued; for hardware-version at least 3 the extended query is
issued and its 32-bit value replaces the packed field before the checks. -/
theorem get_version_zero_protocol_fails (baseResp extResp : List Nat)
    (hhw : hwVersionOf baseResp < 3) (hjf : jtagFieldOf baseResp = 0) :
    get_version baseResp extResp
      = (.error .JTAGNotSupportedOnProbe,
         [{ cmd := [GET_VERSION], dataOut := [], readLen := 12 }]) := by
  have h3 : ¬ 3 ≤ hwVersionOf baseResp := by omega
  simp [get_version, h3, hjf]

/-- Witness for get_version_zero_protocol_fails at the all-zero response. -/
theorem get_version_zero_protocol_fails_witness :
    get_version [] []
      = (.error .JTAGNotSupportedOnProbe,
         [{ cmd := [GET_VERSION], dataOut := [], readLen := 12 }]) :=
  get_version_zero_protocol_fails [] [] (by decide) (by decide)

/-- Claim C7 (counterexample): for addr = 0x0F — low nibble nonzero — and
port equal to the debug-port value, read_dap_register does NOT fail with
BlanksNotAllowedOnDPRegister: the source checks bits 4..7 (`addr & 0xf0`),
which are zero here, so the command is sent (one transport write) and, with
an OK status byte, the call succeeds. -/
theorem dap_register_low_nibble_accepted :
    0x0F % 16 ≠ 0
    ∧ read_dap_register 0xffff 0x0F [0x80, 0, 0, 0]
      = (.ok 0x80,
         [{ cmd := [JTAG_COMMAND, JTAG_READ_DAP_REG, 0xFF, 0xFF, 0x0F, 0x00],
            dataOut := [], readLen := 8 }]) := by
  refine ⟨by decide, rfl⟩

/-- Claim C7 (amended): the debug-port addressing rule is on bits 4..7 of
the address, not the low nibble: if `addr & 0xf0` is nonzero and the port
is the debug-port value, both read_dap_register and write_dap_register fail
with BlanksNotAllowedOnDPRegister; otherwise, if addr does not fit in 16
bits, they fail with RegisterAddressMustBe16Bit; in both failure cases the
trace is empty — no transport write is issued. -/
theorem dap_register_validation (port addr value : Nat) (resp : List Nat) :
    ((addr &&& 0xf0 ≠ 0 ∧ port = DP_PORT) →
       read_dap_register port addr resp
         = (.error .BlanksNotAllowedOnDPRegister, []) ∧
       write_dap_register port addr value resp
         = (.error .BlanksNotAllowedOnDPRegister, [])) ∧
    (((addr &&& 0xf0 = 0 ∨ port ≠ DP_PORT) ∧ 65536 ≤ addr) →
       read_dap_register port addr resp
         = (.error .RegisterAddressMustBe16Bit, []) ∧
       write_dap_register port addr value resp
         = (.error .RegisterAddressMustBe16Bit, [])) := by
  constructor
  · intro h
    have hc : ¬ (addr &&& 0xf0 = 0 ∨ port ≠ DP_PORT) := by
      push_neg
      exact ⟨h.1, h.2⟩
    constructor
    · unfold read_dap_register
      rw [if_neg hc]
    · unfold write_dap_register
      rw [if_neg hc]
  · intro h
    have hs : ¬ (addr >>> 16 = 0) := by
      rw [Nat.shiftRight_eq_div_pow]
      have := h.2
      have h16 : (2 : Nat) ^ 16 = 65536 := by norm_num
      rw [h16]
      omega
    constructor
    · unfold read_dap_register
      rw [if_pos h.1, if_neg hs]
    · unfold write_dap_register
      rw [if_pos h.1, if_neg hs]

/-- Witness for dap_register_validation: addr 0x15 has bits 4..7 nonzero and
the port is the debug-port value, so both calls fail with
BlanksNotAllowedOnDPRegister and an empty trace. -/
theorem dap_register_validation_witness :
    read_dap_register 0xffff 0x15 [] = (.error .BlanksNotAllowedOnDPRegister, [])
    ∧ write_dap_register 0xffff 0x15 7 [] = (.error .BlanksNotAllowedOnDPRegister, []) :=
  (dap_register_validation 0xffff 0x15 7 []).1 ⟨by decide, rfl⟩

/-- Claim C9 (confirmed): any 32-bit access whose address or length is not a
multiple of 4, and any 16-bit access whose address or length is not a
multiple of 2, fails with DataAlignmentError and an empty transport trace —
the alignment check precedes every transport call, so there are no side
effects on the probe. -/
theorem unaligned_access_rejected_before_io (jtag_version addr size apsel : Nat)
    (data : List Nat) (responses : List (List Nat)) :
    ((¬ 4 ∣ addr ∨ ¬ 4 ∣ size) →
       read_mem32 addr size apsel responses = (.error .DataAlignmentError, [])) ∧
    ((¬ 4 ∣ addr ∨ ¬ 4 ∣ data.length) →
       write_mem32 addr data apsel responses = (.error .DataAlignmentError, [])) ∧
    ((¬ 2 ∣ addr ∨ ¬ 2 ∣ size) →
       read_mem16 jtag_version addr size apsel responses
         = (.error .DataAlignmentError, [])) ∧
    ((¬ 2 ∣ addr ∨ ¬ 2 ∣ data.length) →
       write_mem16 jtag_version addr data apsel responses
         = (.error .DataAlignmentError, [])) := by
  refine ⟨?_, ?_, ?_, ?_⟩ <;> intro h
  · have hc : ¬ (addr &&& 0x3 = 0 ∧ size &&& 0x3 = 0) := by
      rw [and_three_eq_mod, and_three_eq_mod]
      rcases h with h | h <;> omega
    unfold read_mem32
    rw [if_neg hc]
  · have hc : ¬ (addr &&& 0x3 = 0 ∧ data.length &&& 0x3 = 0) := by
      rw [and_three_eq_mod, and_three_eq_mod]
      rcases h with h | h <;> omega
    unfold write_mem32
    rw [if_neg hc]
  · have hc : ¬ (addr &&& 0x1 = 0 ∧ size &&& 0x1 = 0) := by
      rw [and_one_eq_mod, and_one_eq_mod]
      rcases h with h | h <;> omega
    unfold read_mem16
    rw [if_neg hc]
  · have hc : ¬ (addr &&& 0x1 = 0 ∧ data.length &&& 0x1 = 0) := by
      rw [and_one_eq_mod, and_one_eq_mod]
      rcases h with h | h <;> omega
    unfold write_mem16
    rw [if_neg hc]

/-- Witness for unaligned_access_rejected_before_io: address 2 is not 4-byte
aligned, so a 32-bit read of 8 bytes at address 2 fails with the alignment
error and an empty trace. -/
theorem unaligned_access_rejected_before_io_witness :
    read_mem32 2 8 0 [] = (.error .DataAlignmentError, []) :=
  (unaligned_access_rejected_before_io 30 2 8 0 [] []).1 (Or.inl (by decide))

/-- The iteration bound of read_mem_loop is irrelevant as long as it is at
least `size`: each iteration strictly decreases `size`, so any sufficient
bound computes the same result. -/
theorem read_mem_loop_fuel_irrel :
    ∀ (f1 f2 addr size memcmd apsel : Nat) (responses : List (List Nat)),
      size ≤ f1 → size ≤ f2 →
      read_mem_loop f1 addr size memcmd apsel responses
        = read_mem_loop f2 addr size memcmd apsel responses := by
  intro f1
  induction f1 with
  | zero =>
    intro f2 addr size memcmd apsel responses h1 h2
    have hz : size = 0 := by omega
    subst hz
    cases f2 <;> simp [read_mem_loop]
  | succ f1 ih =>
    intro f2 addr size memcmd apsel responses h1 h2
    cases f2 with
    | zero =>
      have hz : size = 0 := by omega
      subst hz
      simp [read_mem_loop]
    | succ f2 =>
      by_cases hz : size = 0
      · subst hz
        simp [read_mem_loop]
      · have hts : 1 ≤ min size MAXIMUM_TRANSFER_SIZE := by
          unfold MAXIMUM_TRANSFER_SIZE
          omega
        simp only [read_mem_loop, if_neg hz]
        cases hact : memStatusAction (decodedStatus ((responses.get? 1).getD []))
        · rfl
        · rfl
        · have := ih f2 (wrap32 (addr + min size MAXIMUM_TRANSFER_SIZE))
            (size - min size MAXIMUM_TRANSFER_SIZE) memcmd apsel (responses.drop 2)
            (by omega) (by omega)
          rw [this]

/-- The iteration bound of write_mem_loop is irrelevant as long as it is at
least `data.length`. -/
theorem write_mem_loop_fuel_irrel :
    ∀ (f1 f2 addr : Nat) (data : List Nat) (memcmd apsel : Nat)
      (responses : List (List Nat)),
      data.length ≤ f1 → data.length ≤ f2 →
      write_mem_loop f1 addr data memcmd apsel responses
        = write_mem_loop f2 addr data memcmd apsel responses := by
  intro f1
  induction f1 with
  | zero =>
    intro f2 addr data memcmd apsel responses h1 h2
    have hz : data.length = 0 := by omega
    cases f2 <;> simp [write_mem_loop, hz]
  | succ f1 ih =>
    intro f2 addr data memcmd apsel responses h1 h2
    cases f2 with
    | zero =>
      have hz : data.length = 0 := by omega
      simp [write_mem_loop, hz]
    | succ f2 =>
      by_cases hz : data.length = 0
      · simp [write_mem_loop, hz]
      · have hts : 1 ≤ min data.length MAXIMUM_TRANSFER_SIZE := by
          unfold MAXIMUM_TRANSFER_SIZE
          omega
        simp only [write_mem_loop, if_neg hz]
        cases hact : memStatusAction (decodedStatus ((responses.get? 1).getD []))
        · rfl
        · rfl
        · have := ih f2 (wrap32 (addr + min data.length MAXIMUM_TRANSFER_SIZE))
            (data.drop (min data.length MAXIMUM_TRANSFER_SIZE)) memcmd apsel
            (responses.drop 2)
            (by rw [List.length_drop]; omega) (by rw [List.length_drop]; omega)
          rw [this]

/-- Claim C1 (amended): when the per-chunk last-transfer-status check of
read_mem or write_mem decodes a fault status (unknown-error, access-port
fault or debug-port fault), the operation fails with TransferFault carrying
the decoded fault address and a count equal to the chunk size minus
(fault address minus the address already advanced PAST the chunk, i.e. the
chunk's starting address plus the chunk size), computed with wrapping
32-bit subtraction and truncated to 16 bits — not the chunk's starting
address, and not clipped. -/
theorem mem_fault_reported_from_advanced_address
    (addr size memcmd apsel : Nat) (data : List Nat)
    (r0 r1 : List Nat) (rest : List (List Nat))
    (hsize : 0 < size) (hdata : 0 < data.length)
    (hf : decodedStatus r1 = JtagUnknownError ∨ decodedStatus r1 = SwdApFault ∨
          decodedStatus r1 = SwdDpFault) :
    (read_mem addr size memcmd apsel (r0 :: r1 :: rest)).1
      = .error (.TransferFault (decodedFaultAddress r1)
          (wsub32 (min size MAXIMUM_TRANSFER_SIZE)
            (wsub32 (decodedFaultAddress r1)
              (wrap32 (addr + min size MAXIMUM_TRANSFER_SIZE))) % u16lim))
    ∧ (write_mem addr data memcmd apsel (r0 :: r1 :: rest)).1
      = .error (.TransferFault (decodedFaultAddress r1)
          (wsub32 (min data.length MAXIMUM_TRANSFER_SIZE)
            (wsub32 (decodedFaultAddress r1)
              (wrap32 (addr + min data.length MAXIMUM_TRANSFER_SIZE))) % u16lim)) := by
  have hact : memStatusAction (decodedStatus r1) = .fault := by
    rcases hf with h | h | h <;> rw [h] <;> decide
  constructor
  · obtain ⟨k, rfl⟩ := Nat.exists_eq_succ_of_ne_zero (Nat.pos_iff_ne_zero.mp hsize)
    unfold read_mem
    simp only [read_mem_loop, if_neg (by omega : ¬ (k + 1 = 0)),
      List.get?_cons_succ, List.get?_cons_zero, Option.getD_some]
    rw [hact]
  · obtain ⟨k, hk⟩ := Nat.exists_eq_succ_of_ne_zero (Nat.pos_iff_ne_zero.mp hdata)
    unfold write_mem
    rw [hk]
    simp only [write_mem_loop, if_neg (by omega : ¬ (data.length = 0)),
      List.get?_cons_succ, List.get?_cons_zero, Option.getD_some]
    rw [hact, ← hk]

/-- Witness for mem_fault_reported_from_advanced_address: an unknown-error
status with fault address 0x2000 during the chunk at 0x1000 of size 256
makes read_mem report TransferFault(0x2000, 61952). -/
theorem mem_fault_reported_from_advanced_address_witness :
    (read_mem 0x1000 256 JTAG_READMEM_32BIT 1
        [[], [0x01, 0, 0, 0, 0x00, 0x20, 0, 0]]).1
      = .error (.TransferFault 0x2000 61952) := by
  have h := (mem_fault_reported_from_advanced_address 0x1000 256 JTAG_READMEM_32BIT 1
    [0] [] [0x01, 0, 0, 0, 0x00, 0x20, 0, 0] [] (by decide) (by decide)
    (Or.inl (by decide))).1
  exact h.trans (by rfl)

theorem except_map_nil_append (x : Except STLinkError (List Nat)) :
    Except.map (fun r => [] ++ r) x = x := by
  cases x <;> rfl

/-- Claim C8 (confirmed): in the per-chunk status check of read_mem and
write_mem, a decoded status equal to the OK sentinel makes the whole
operation fail with UnknownError, while a status that is none of OK,
unknown-error, access-port fault or debug-port fault lets the loop continue:
the result is that of the transfer resumed at the advanced address with the
remaining size (or remaining data) and the remaining responses. -/
theorem status_ok_anomaly_other_codes_continue
    (addr size memcmd apsel : Nat) (data : List Nat)
    (r0 r1 : List Nat) (rest : List (List Nat))
    (hsize : 0 < size) (hdata : 0 < data.length) :
    (decodedStatus r1 = JtagOk →
       (read_mem addr size memcmd apsel (r0 :: r1 :: rest)).1 = .error .UnknownError
       ∧ (write_mem addr data memcmd apsel (r0 :: r1 :: rest)).1
           = .error .UnknownError) ∧
    (decodedStatus r1 ≠ JtagOk → decodedStatus r1 ≠ JtagUnknownError →
     decodedStatus r1 ≠ SwdApFault → decodedStatus r1 ≠ SwdDpFault →
       (read_mem addr size memcmd apsel (r0 :: r1 :: rest)).1
         = (read_mem (wrap32 (addr + min size MAXIMUM_TRANSFER_SIZE))
             (size - min size MAXIMUM_TRANSFER_SIZE) memcmd apsel rest).1
       ∧ (write_mem addr data memcmd apsel (r0 :: r1 :: rest)).1
           = (write_mem (wrap32 (addr + min data.length MAXIMUM_TRANSFER_SIZE))
               (data.drop (min data.length MAXIMUM_TRANSFER_SIZE)) memcmd apsel
               rest).1) := by
  constructor
  · intro hok
    have hact : memStatusAction (decodedStatus r1) = .anomalyOk := by
      rw [hok]; decide
    constructor
    · obtain ⟨k, rfl⟩ := Nat.exists_eq_succ_of_ne_zero (Nat.pos_iff_ne_zero.mp hsize)
      unfold read_mem
      simp only [read_mem_loop, if_neg (by omega : ¬ (k + 1 = 0)),
        List.get?_cons_succ, List.get?_cons_zero, Option.getD_some]
      rw [hact]
    · obtain ⟨k, hk⟩ := Nat.exists_eq_succ_of_ne_zero (Nat.pos_iff_ne_zero.mp hdata)
      unfold write_mem
      rw [hk]
      simp only [write_mem_loop, if_neg (by omega : ¬ (data.length = 0)),
        List.get?_cons_succ, List.get?_cons_zero, Option.getD_some]
      rw [hact]
  · intro h1 h2 h3 h4
    have hact : memStatusAction (decodedStatus r1) = .proceed := by
      unfold memStatusAction
      rw [if_neg h2, if_neg h3, if_neg h4, if_neg h1]
    constructor
    · obtain ⟨k, rfl⟩ := Nat.exists_eq_succ_of_ne_zero (Nat.pos_iff_ne_zero.mp hsize)
      have hts : 1 ≤ min (k + 1) MAXIMUM_TRANSFER_SIZE := by
        unfold MAXIMUM_TRANSFER_SIZE
        omega
      unfold read_mem
      simp only [read_mem_loop, if_neg (by omega : ¬ (k + 1 = 0)),
        List.get?_cons_succ, List.get?_cons_zero, Option.getD_some,
        List.drop_succ_cons, List.drop_zero]
      rw [hact]
      rw [read_mem_loop_fuel_irrel k (k + 1 - min (k + 1) MAXIMUM_TRANSFER_SIZE)
        (wrap32 (addr + min (k + 1) MAXIMUM_TRANSFER_SIZE))
        (k + 1 - min (k + 1) MAXIMUM_TRANSFER_SIZE) memcmd apsel rest
        (by omega) (by omega)]
      simp only [except_map_nil_append]
    · obtain ⟨k, hk⟩ := Nat.exists_eq_succ_of_ne_zero (Nat.pos_iff_ne_zero.mp hdata)
      have hts : 1 ≤ min data.length MAXIMUM_TRANSFER_SIZE := by
        unfold MAXIMUM_TRANSFER_SIZE
        omega
      unfold write_mem
      rw [hk]
      simp only [write_mem_loop, if_neg (by omega : ¬ (data.length = 0)),
        List.get?_cons_succ, List.get?_cons_zero, Option.getD_some,
        List.drop_succ_cons, List.drop_zero]
      rw [hact]
      rw [write_mem_loop_fuel_irrel k
        ((data.drop (min data.length MAXIMUM_TRANSFER_SIZE)).length)
        (wrap32 (addr + min data.length MAXIMUM_TRANSFER_SIZE))
        (data.drop (min data.length MAXIMUM_TRANSFER_SIZE)) memcmd apsel rest
        (by rw [List.length_drop]; omega) (le_refl _)]
      rw [← hk]

/-- Witness for status_ok_anomaly_other_codes_continue: a status response
decoding to the OK sentinel makes a 4-byte read fail with UnknownError. -/
theorem status_ok_anomaly_other_codes_continue_witness :
    (read_mem 0 4 JTAG_READMEM_8BIT 0 [[], [0x80]]).1 = .error .UnknownError :=
  ((status_ok_anomaly_other_codes_continue 0 4 JTAG_READMEM_8BIT 0 [5] [] [0x80] []
      (by decide) (by decide)).1 (by decide)).1
